import Mathlib

/-!
Verification of the node_inventory collector (src/python/inventory.py and the
near-duplicate src/inventory.py) against its natural-language specification.

The Python string operations are embedded as structural functions over the
character list of a `String`, matching Python semantics: `str.split(sep)`
keeps empty fields, `str.split()` splits on whitespace runs and drops empty
fields, `str.strip()` trims whitespace at both ends, `str.startswith(p)`
tests a prefix.  Fallible Python code (subprocess failures, `NameError` on an
unbound local, `IndexError` on out-of-range indexing, `ValueError` from
`int()`) is embedded in `Except Err`.
-/

deriving instance DecidableEq for Except

/-- Splits a character list at every character satisfying `p`, keeping empty
groups, as Python's `str.split(sep)` does for a one-character separator. -/
def splitIf (p : Char → Bool) : List Char → List (List Char)
  | [] => [[]]
  | a :: as =>
    if p a then [] :: splitIf p as
    else
      match splitIf p as with
      | [] => [[a]]
      | g :: gs => (a :: g) :: gs

/-- Python `s.split("\n")`. -/
def pyLines (s : String) : List String :=
  (splitIf (fun c => c = '\n') s.data).map (fun l => ⟨l⟩)

/-- Python `s.split(":")`. -/
def pySplitColon (s : String) : List String :=
  (splitIf (fun c => c = ':') s.data).map (fun l => ⟨l⟩)

/-- Python `s.split()`: split on whitespace runs, dropping empty fields. -/
def pySplitWs (s : String) : List String :=
  ((splitIf Char.isWhitespace s.data).filter (fun g => g ≠ [])).map (fun l => ⟨l⟩)

/-- Python `s.strip()`. -/
def pyStrip (s : String) : String :=
  ⟨((s.data.dropWhile Char.isWhitespace).reverse.dropWhile Char.isWhitespace).reverse⟩

/-- Python `s.startswith(p)`. -/
def pyStartsWith (s p : String) : Bool :=
  p.data.isPrefixOf s.data

/-- Python list indexing `l[n]`, `none` standing for an `IndexError`. -/
def nth : List α → Nat → Option α
  | [], _ => none
  | a :: _, 0 => some a
  | _ :: l, n + 1 => nth l n

/-- Decimal digits to a number; `none` when empty or a non-digit appears. -/
def natOfDigits? : List Char → Option Nat
  | [] => none
  | ds => go ds 0
where
  go : List Char → Nat → Option Nat
    | [], acc => some acc
    | c :: cs, acc => if c.isDigit then go cs (acc * 10 + (c.toNat - '0'.toNat)) else none

/-- Python `int(s)` on a decimal literal with optional sign and surrounding
whitespace; `none` stands for a `ValueError`. -/
def pyInt? (s : String) : Option Int :=
  match (pyStrip s).data with
  | [] => none
  | '-' :: ds => (natOfDigits? ds).map (fun n => -(n : Int))
  | '+' :: ds => (natOfDigits? ds).map (fun n => (n : Int))
  | ds => (natOfDigits? ds).map (fun n => (n : Int))

/-- Python `f"{x}"` for an optional string: `None` prints as `"None"`. -/
def pyFStr : Option String → String
  | none => "None"
  | some s => s

/-- Python `sep.join(l)`. -/
def pyJoin (sep : String) : List String → String
  | [] => ""
  | [x] => x
  | x :: y :: xs => x ++ sep ++ pyJoin sep (y :: xs)

/-- The failure modes of the collector: `probe` is a
`subprocess.CalledProcessError` (the spec's `ProbeExecutionError`);
`nameError` is Python's `NameError` on the named unbound local, which is how
the parsers fail when an expected labeled line is missing (the spec's
`ParseError` identifying the missing fact); `indexError` and `valueError` are
the corresponding Python exceptions from indexing and `int()`. -/
inductive Err where
  | probe (cmd : String)
  | nameError (var : String)
  | indexError
  | valueError
deriving DecidableEq, Repr

/-- A Python value as stored in the ad hoc record dicts: either a string or
an integer. -/
inductive PyVal where
  | str (s : String)
  | int (n : Int)
deriving DecidableEq, Repr

/-- Whether a `PyVal` is an integer value. -/
def PyVal.isIntVal : PyVal → Bool
  | .int _ => true
  | .str _ => false

/-- One entry of the list returned by `get_cpu_info`
(src/python/inventory.py lines 65-73): the dict
`{"cpu_num": f"{i}", "model": model, "cores": cores, "threads": threads}`.
`cpu_num` is kept as a `PyVal` because the code stores the f-string
rendering of `i`, a string, while the spec's data model calls it an
integer. -/
structure CpuRec where
  cpu_num : PyVal
  model : String
  cores : String
  threads : String
deriving DecidableEq, Repr

/-- The dict returned by `get_mem_info` (src/python/inventory.py line 90). -/
structure MemInfo where
  memory : String
deriving DecidableEq, Repr

/-- The dict returned by `get_model_info` (src/python/inventory.py 23-35). -/
structure ModelInfo where
  model : String
  serial : String
deriving DecidableEq, Repr

/-- One disk dict built by `get_disk_info` (src/python/inventory.py 144-165).
`path` is `none` when the `"path"` key is never set (the NVMe branch).
`serial` is `none` when the `"serial"` key is never set; `some none` when the
key was set to Python `None` by the merge loop. -/
structure DiskRec where
  name : String
  path : Option String
  size : String
  type : String
  serial : Option (Option String)
deriving DecidableEq, Repr

/-- `list(map(f, l))` over results that can raise: consuming the iterator of
`concurrent.futures.Executor.map` re-raises the first element's exception in
input order, aborting the enclosing function. -/
def exceptMap (f : α → Except Err β) : List α → Except Err (List β)
  | [] => .ok []
  | a :: l => do
    let b ← f a
    let bs ← exceptMap f l
    .ok (b :: bs)

/-- `line.split(":")[1].strip()` (src/python/inventory.py 57, 59, 61, 63, 88,
112): `IndexError` when the line has no `':'`. -/
def colonVal (l : String) : Except Err String :=
  match nth (pySplitColon l) 1 with
  | none => .error .indexError
  | some v => .ok (pyStrip v)

/-- Total version of `colonVal` used to state what the parsers extract. -/
def colonValD (l : String) : String :=
  pyStrip ((nth (pySplitColon l) 1).getD "")

/-- The parse state of `get_cpu_info`'s line loop: the four local variables,
`none` while still unbound. -/
structure CpuState where
  threads : Option String
  cores : Option String
  sockets : Option String
  model : Option String
deriving DecidableEq, Repr

/-- One iteration of the `for line in results` loop of `get_cpu_info`
(src/python/inventory.py 55-63): an `if`/`elif` chain on line prefixes, the
matching branch rebinding its variable to `line.split(":")[1].strip()`. -/
def cpu_step (st : CpuState) (l : String) : Except Err CpuState :=
  if pyStartsWith l "Thread" then do
    let v ← colonVal l
    .ok { st with threads := some v }
  else if pyStartsWith l "Core" then do
    let v ← colonVal l
    .ok { st with cores := some v }
  else if pyStartsWith l "Socket" then do
    let v ← colonVal l
    .ok { st with sockets := some v }
  else if pyStartsWith l "Model name" then do
    let v ← colonVal l
    .ok { st with model := some v }
  else .ok st

/-- The whole line loop of `get_cpu_info`. -/
def cpu_scan : CpuState → List String → Except Err CpuState
  | st, [] => .ok st
  | st, l :: ls => do
    let st' ← cpu_step st l
    cpu_scan st' ls

/-- `get_cpu_info`'s parsing of the captured `lscpu` lines
(src/python/inventory.py 55-75): scan the lines, then
`for i in range(0, int(sockets))` append one dict per socket.  Accessing a
variable never bound by the loop raises `NameError` naming it — `sockets`
at `int(sockets)`, and `model`/`cores`/`threads` (in dict-literal order)
only when at least one iteration runs. -/
def cpu_parse (lines : List String) : Except Err (List CpuRec) := do
  let st ← cpu_scan ⟨none, none, none, none⟩ lines
  match st.sockets with
  | none => .error (.nameError "sockets")
  | some sstr =>
    match pyInt? sstr with
    | none => .error .valueError
    | some S =>
      if S ≤ 0 then .ok []
      else
        match st.model with
        | none => .error (.nameError "model")
        | some m =>
          match st.cores with
          | none => .error (.nameError "cores")
          | some c =>
            match st.threads with
            | none => .error (.nameError "threads")
            | some t =>
              .ok ((List.range S.toNat).map fun i =>
                ⟨PyVal.str (toString i), m, c, t⟩)

/-- `get_cpu_info` (src/python/inventory.py 38-75): the `lscpu` run result
(`check=True`, so a command failure is an exception) followed by
`.stdout.strip().split("\n")` and the parse. -/
def get_cpu_info (run : Except Err String) : Except Err (List CpuRec) := do
  let out ← run
  cpu_parse (pyLines (pyStrip out))

/-- The `for line in results` loop of `get_mem_info`
(src/python/inventory.py 86-88): the last line starting with
`"Total online"` rebinds `mem`. -/
def mem_scan : Option String → List String → Except Err (Option String)
  | m, [] => .ok m
  | m, l :: ls =>
    if pyStartsWith l "Total online" then do
      let v ← colonVal l
      mem_scan (some v) ls
    else mem_scan m ls

/-- `get_mem_info`'s parsing of the captured `lsmem` lines
(src/python/inventory.py 86-94): if no line matched, reading `mem` for the
result dict raises `NameError: name 'mem' is not defined`. -/
def mem_parse (lines : List String) : Except Err MemInfo := do
  let m ← mem_scan none lines
  match m with
  | none => .error (.nameError "mem")
  | some v => .ok ⟨v⟩

/-- `get_mem_info` (src/python/inventory.py 78-94). -/
def get_mem_info (run : Except Err String) : Except Err MemInfo := do
  let out ← run
  mem_parse (pyLines (pyStrip out))

/-- The `for line in results` loop of `get_disk_serial`
(src/python/inventory.py 110-112): the last line starting with `"Serial"`
rebinds `serial`, initialised to `None`. -/
def serial_scan : Option String → List String → Except Err (Option String)
  | s, [] => .ok s
  | s, l :: ls =>
    if pyStartsWith l "Serial" then do
      let v ← colonVal l
      serial_scan (some v) ls
    else serial_scan s ls

/-- `get_disk_serial` (src/python/inventory.py 97-114): runs
`smartctl -i /dev/{disk}` with `check=True` (a non-zero exit raises), splits
`stdout` on newlines without stripping, scans for the serial, and returns
the `(disk, serial)` tuple; `serial` stays `None` when no line matched. -/
def get_disk_serial (disk : String) (run : Except Err String) :
    Except Err (String × Option String) := do
  let out ← run
  let s ← serial_scan none (pyLines out)
  .ok (disk, s)

/-- The body of the `for item in lsblk_list` loop of `get_disk_info`
(src/python/inventory.py 144-165): whitespace-tokenize the line; an
`"nvme"`-prefixed name takes fields `[0]`, `[2]` (KNAME, SIZE — HCTL is
empty for NVMe) with type `"nvme"` and no `"path"` key; any other name takes
fields `[0]`, `[1]`, `[3]`, then the transient `"type": "nvme"` assignment is
overwritten with `"hdd"` when field `[2]` equals `"1"` and `"ssd"`
otherwise.  Out-of-range fields raise `IndexError` in the code's evaluation
order. -/
def parse_disk_line (item : String) : Except Err DiskRec :=
  let ds := pySplitWs item
  match nth ds 0 with
  | none => .error .indexError
  | some name =>
    if pyStartsWith name "nvme" then
      match nth ds 2 with
      | none => .error .indexError
      | some size => .ok ⟨name, none, size, "nvme", none⟩
    else
      match nth ds 1 with
      | none => .error .indexError
      | some p =>
        match nth ds 3 with
        | none => .error .indexError
        | some size =>
          match nth ds 2 with
          | none => .error .indexError
          | some rota =>
            .ok ⟨name, some p, size, if rota = "1" then "hdd" else "ssd", none⟩

/-- One assignment pass of the serial merge loop of `get_disk_info`
(src/python/inventory.py 170-173): `if serial[0] == disk["name"]:
disk["serial"] = serial[1]`. -/
def reconcile_step (s : String × Option String) (dk : DiskRec) : DiskRec :=
  if s.1 = dk.name then { dk with serial := some s.2 } else dk

/-- The nested merge loop of `get_disk_info` (src/python/inventory.py
170-173): for each `(name, serial)` pair in arrival order, set `serial` on
every disk record whose name matches. -/
def reconcile (disks : List DiskRec) (serials : List (String × Option String)) :
    List DiskRec :=
  serials.foldl (fun acc s => acc.map (reconcile_step s)) disks

/-- The effect of the whole merge loop on a single disk record. -/
def reconcileOne (serials : List (String × Option String)) (dk : DiskRec) : DiskRec :=
  serials.foldl (fun d s => reconcile_step s d) dk

/-- `get_disk_info` (src/python/inventory.py 117-175): parse the stripped
`lsblk` output line by line (collecting `disk_list` of names alongside),
fan the serial probe out over the names — consuming the executor's result
iterator re-raises the first per-disk exception, aborting the function —
then run the merge loop and return the records. -/
def get_disk_info (lsblkRun : Except Err String)
    (serialRun : String → Except Err String) : Except Err (List DiskRec) := do
  let out ← lsblkRun
  let recs ← exceptMap parse_disk_line (pyLines (pyStrip out))
  let serials ← exceptMap (fun n => get_disk_serial n (serialRun n)) (recs.map (fun r => r.name))
  .ok (reconcile recs serials)

/-- The NVMe branch of `get_disk_temps`'s line loop
(src/python/inventory.py 191-194): the last line starting with
`"Temperature:"` rebinds `temp` to `line.split()[1].strip()`. -/
def nvme_temp_scan : Option String → List String → Except Err (Option String)
  | t, [] => .ok t
  | t, l :: ls =>
    if pyStartsWith l "Temperature:" then
      match nth (pySplitWs l) 1 with
      | none => .error .indexError
      | some v => nvme_temp_scan (some (pyStrip v)) ls
    else nvme_temp_scan t ls

/-- The non-NVMe branch of `get_disk_temps`'s line loop
(src/python/inventory.py 195-198): the last line starting with
`"194 Temperature"` rebinds `temp` to `line.split()[9].strip()`. -/
def ata_temp_scan : Option String → List String → Except Err (Option String)
  | t, [] => .ok t
  | t, l :: ls =>
    if pyStartsWith l "194 Temperature" then
      match nth (pySplitWs l) 9 with
      | none => .error .indexError
      | some v => ata_temp_scan (some (pyStrip v)) ls
    else ata_temp_scan t ls

/-- `get_disk_temps` (src/python/inventory.py 178-200): runs
`smartctl -A /dev/{name}` with `check=True`, splits `stdout` on newlines
without stripping, scans the branch selected by the device name, and
returns `f"{disk['name']} {temp}"` — a `None` temperature prints as the
literal string `"None"`.  `temp_scan_for` is the branch on the device name
selecting which loop runs (line 191). -/
def temp_scan_for (name out : String) : Except Err (Option String) :=
  if pyStartsWith name "nvme" then nvme_temp_scan none (pyLines out)
  else ata_temp_scan none (pyLines out)

def get_disk_temps (disk : DiskRec) (run : String → Except Err String) :
    Except Err String := do
  let out ← run disk.name
  let temp ← temp_scan_for disk.name out
  .ok (disk.name ++ " " ++ pyFStr temp)

/-- One sampling cycle of the temperature loop (src/python/inventory.py
237-240): fan `get_disk_temps` out over the captured disk list;
`list(temp_futures)` re-raises the first per-disk exception, and on success
the cycle's text is the `'|'`-join of the per-disk strings in disk-list
order. -/
def temp_cycle (disks : List DiskRec) (run : String → Except Err String) :
    Except Err String := do
  let temps ← exceptMap (fun d => get_disk_temps d run) disks
  .ok (pyJoin "|" temps)

/-- The Temperature Sampler Loop (src/python/inventory.py 236-241), observed
over finitely many cycles, the external world of cycle `k` given by the
`k`-th run environment: each successful cycle's line is published (printed)
and the loop goes on; a cycle that raises propagates its exception to
`main`'s handler, which logs it and ends the loop — nothing of that cycle
is published.  Returns the published lines and the terminating error, if
any. -/
def sampler_loop (disks : List DiskRec) :
    List (String → Except Err String) → List String × Option Err
  | [] => ([], none)
  | run :: rest =>
    match temp_cycle disks run with
    | .error e => ([], some e)
    | .ok line =>
      let r := sampler_loop disks rest
      (line :: r.1, r.2)

/-- The inventory record assembled by `main` (src/python/inventory.py
208-232): hostname, then the four facet futures' results in retrieval
order — disks, cpus, memory, model.  The first future whose probe raised
re-raises at its `.result()` call, so assembly yields that error and no
record. -/
structure HostInfo where
  host : String
  disks : List DiskRec
  cpus : List CpuRec
  memory : String
  model : String
  serial : String
deriving DecidableEq, Repr

/-- `main`'s snapshot assembly (src/python/inventory.py 216-232) from the
four probe results. -/
def main_assemble (host : String) (cpusR : Except Err (List CpuRec))
    (memR : Except Err MemInfo) (modelR : Except Err ModelInfo)
    (disksR : Except Err (List DiskRec)) : Except Err HostInfo := do
  let d ← disksR
  let c ← cpusR
  let m ← memR
  let mo ← modelR
  .ok ⟨host, d, c, m.memory, mo.model, mo.serial⟩

/-- The label test of `get_cpu_info`'s `if`/`elif` chain: whether any branch
fires on this line. -/
def cpuMatched (l : String) : Bool :=
  pyStartsWith l "Thread" || pyStartsWith l "Core" ||
    pyStartsWith l "Socket" || pyStartsWith l "Model name"

/-- The last element of a list satisfying `p`, if any: "the last occurrence
of each label wins". -/
def lastMatch (p : String → Bool) : List String → Option String
  | [] => none
  | l :: ls =>
    match lastMatch p ls with
    | some r => some r
    | none => if p l then some l else none

/-! ## Basic lemmas about the embedding -/

theorem pyStartsWith_head {l p : String} {c : Char}
    (hp : p.data.head? = some c) (h : pyStartsWith l p = true) :
    l.data.head? = some c := by
  unfold pyStartsWith at h
  cases hpd : p.data with
  | nil => rw [hpd] at hp; cases hp
  | cons x xs =>
    rw [hpd] at hp h
    cases hld : l.data with
    | nil => rw [hld] at h; simp [List.isPrefixOf] at h
    | cons y ys =>
      rw [hld] at h
      simp only [List.isPrefixOf, Bool.and_eq_true, beq_iff_eq] at h
      simp only [List.head?] at hp ⊢
      rw [← h.1]
      exact hp

theorem pyStartsWith_ne {l a b : String} (ca cb : Char)
    (hha : a.data.head? = some ca) (hhb : b.data.head? = some cb) (hne : ca ≠ cb)
    (h : pyStartsWith l a = true) : pyStartsWith l b = false := by
  cases hb : pyStartsWith l b
  · rfl
  · exact absurd (Option.some.inj
      ((pyStartsWith_head hha h).symm.trans (pyStartsWith_head hhb hb))) hne

theorem colonVal_ok {l : String} (h : (nth (pySplitColon l) 1).isSome = true) :
    colonVal l = .ok (colonValD l) := by
  unfold colonVal colonValD
  cases hn : nth (pySplitColon l) 1 with
  | none => rw [hn] at h; cases h
  | some v => simp

/-! ## C5, C6, C10: the disk enumeration parser -/

/-- Claim C5 (confirmed): a disk-enumeration line whose first
whitespace-separated field starts with "nvme" yields a record with
`type = "nvme"` and no `"path"` key, whatever the rotational flag field
holds (the line's other fields are universally quantified). -/
theorem C5_nvme_line (item name size : String)
    (h0 : nth (pySplitWs item) 0 = some name)
    (hn : pyStartsWith name "nvme" = true)
    (h2 : nth (pySplitWs item) 2 = some size) :
    parse_disk_line item = .ok ⟨name, none, size, "nvme", none⟩ := by
  simp [parse_disk_line, h0, hn, h2]

/-- Witness for C5: the spec's own example line `nvme0n1 0 1T`. -/
theorem C5_nvme_line_witness :
    parse_disk_line "nvme0n1 0 1T" = .ok ⟨"nvme0n1", none, "1T", "nvme", none⟩ :=
  C5_nvme_line "nvme0n1 0 1T" "nvme0n1" "1T" (by decide) (by decide) (by decide)

/-- Claim C6 (confirmed): a disk-enumeration line whose first field does not
start with "nvme" yields a record carrying the controller path field and
classified `"hdd"` exactly when the rotational flag field is `"1"`, `"ssd"`
for any other value. -/
theorem C6_rotational_line (item name p rota size : String)
    (h0 : nth (pySplitWs item) 0 = some name)
    (hn : pyStartsWith name "nvme" = false)
    (h1 : nth (pySplitWs item) 1 = some p)
    (h3 : nth (pySplitWs item) 3 = some size)
    (h2 : nth (pySplitWs item) 2 = some rota) :
    parse_disk_line item =
      .ok ⟨name, some p, size, if rota = "1" then "hdd" else "ssd", none⟩ := by
  simp [parse_disk_line, h0, hn, h1, h3, h2]

/-- Witness for C6: the spec's own example line `sda 1:0:0:0 1 500G`, and an
`ssd` case with rotational flag `"0"`. -/
theorem C6_rotational_line_witness :
    parse_disk_line "sda 1:0:0:0 1 500G" = .ok ⟨"sda", some "1:0:0:0", "500G", "hdd", none⟩ ∧
    parse_disk_line "sdb 2:0:0:0 0 500G" = .ok ⟨"sdb", some "2:0:0:0", "500G", "ssd", none⟩ := by
  constructor
  · exact C6_rotational_line "sda 1:0:0:0 1 500G" "sda" "1:0:0:0" "1" "500G"
      (by decide) (by decide) (by decide) (by decide) (by decide)
  · exact C6_rotational_line "sdb 2:0:0:0 0 500G" "sdb" "2:0:0:0" "0" "500G"
      (by decide) (by decide) (by decide) (by decide) (by decide)

/-- Claim C10 (confirmed): every record the disk-enumeration parser emits is
classified as exactly one of "nvme", "hdd", "ssd", and is "nvme" precisely
when its name starts with "nvme" — the transient `"type": "nvme"` assignment
of the non-NVMe branch is always overwritten by the total if/else. -/
theorem C10_type_invariant (item : String) (rec : DiskRec)
    (h : parse_disk_line item = .ok rec) :
    (rec.type = "nvme" ∨ rec.type = "hdd" ∨ rec.type = "ssd") ∧
    (rec.type = "nvme" ↔ pyStartsWith rec.name "nvme" = true) := by
  simp only [parse_disk_line] at h
  split at h
  · cases h
  · rename_i name h0
    split at h
    · rename_i hn
      split at h
      · cases h
      · cases h
        exact ⟨Or.inl rfl, by simp [hn]⟩
    · rename_i hn
      split at h
      · cases h
      · split at h
        · cases h
        · split at h
          · cases h
          · rename_i rota h2
            cases h
            by_cases hr : rota = "1"
            · refine ⟨Or.inr (Or.inl (by simp [hr])), ?_⟩
              constructor
              · intro habs
                rw [if_pos hr] at habs
                simp at habs
              · intro habs
                simp only at habs
                exact absurd habs hn
            · refine ⟨Or.inr (Or.inr (by simp [hr])), ?_⟩
              constructor
              · intro habs
                rw [if_neg hr] at habs
                simp at habs
              · intro habs
                simp only at habs
                exact absurd habs hn

/-- Witness for C10 at both example lines. -/
theorem C10_type_invariant_witness :
    (("hdd" : String) = "nvme" ∨ ("hdd" : String) = "hdd" ∨ ("hdd" : String) = "ssd") ∧
    (("hdd" : String) = "nvme" ↔ pyStartsWith "sda" "nvme" = true) :=
  C10_type_invariant "sda 1:0:0:0 1 500G" ⟨"sda", some "1:0:0:0", "500G", "hdd", none⟩
    (by decide)

/-! ## C7: memory probe failure is fatal to assembly -/

/-- Claim C7 (confirmed): when the memory probe's command execution fails
(`lsmem` raised, so `get_mem_info` re-raises) while the CPU, model and disk
probes all succeed, `main`'s assembly yields that first fatal error and no
`HostInfo` snapshot is produced. -/
theorem C7_memory_failure_fatal (host : String) (c : List CpuRec)
    (mo : ModelInfo) (d : List DiskRec) (e : Err) :
    main_assemble host (.ok c) (get_mem_info (.error e)) (.ok mo) (.ok d) = .error e := rfl

/-! ## CPU parser characterization: the pure fold and last-match lemmas -/

/-- The effect of `cpu_step` when the matched line is well formed: a pure
state update. -/
def cpu_fold_step (st : CpuState) (l : String) : CpuState :=
  if pyStartsWith l "Thread" then { st with threads := some (colonValD l) }
  else if pyStartsWith l "Core" then { st with cores := some (colonValD l) }
  else if pyStartsWith l "Socket" then { st with sockets := some (colonValD l) }
  else if pyStartsWith l "Model name" then { st with model := some (colonValD l) }
  else st

theorem not_core_of_thread {l : String} (h : pyStartsWith l "Thread" = true) :
    pyStartsWith l "Core" = false :=
  pyStartsWith_ne 'T' 'C' (by decide) (by decide) (by decide) h

theorem not_socket_of_thread {l : String} (h : pyStartsWith l "Thread" = true) :
    pyStartsWith l "Socket" = false :=
  pyStartsWith_ne 'T' 'S' (by decide) (by decide) (by decide) h

theorem not_model_of_thread {l : String} (h : pyStartsWith l "Thread" = true) :
    pyStartsWith l "Model name" = false :=
  pyStartsWith_ne 'T' 'M' (by decide) (by decide) (by decide) h

theorem not_socket_of_core {l : String} (h : pyStartsWith l "Core" = true) :
    pyStartsWith l "Socket" = false :=
  pyStartsWith_ne 'C' 'S' (by decide) (by decide) (by decide) h

theorem not_model_of_core {l : String} (h : pyStartsWith l "Core" = true) :
    pyStartsWith l "Model name" = false :=
  pyStartsWith_ne 'C' 'M' (by decide) (by decide) (by decide) h

theorem not_model_of_socket {l : String} (h : pyStartsWith l "Socket" = true) :
    pyStartsWith l "Model name" = false :=
  pyStartsWith_ne 'S' 'M' (by decide) (by decide) (by decide) h

theorem cpu_fold_step_threads (st : CpuState) (l : String) :
    (cpu_fold_step st l).threads =
      if pyStartsWith l "Thread" then some (colonValD l) else st.threads := by
  unfold cpu_fold_step
  by_cases h1 : pyStartsWith l "Thread" = true
  · simp [h1]
  · by_cases h2 : pyStartsWith l "Core" = true
    · simp [h1, h2]
    · by_cases h3 : pyStartsWith l "Socket" = true
      · simp [h1, h2, h3]
      · by_cases h4 : pyStartsWith l "Model name" = true
        · simp [h1, h2, h3, h4]
        · simp [h1, h2, h3, h4]

theorem cpu_fold_step_cores (st : CpuState) (l : String) :
    (cpu_fold_step st l).cores =
      if pyStartsWith l "Core" then some (colonValD l) else st.cores := by
  unfold cpu_fold_step
  by_cases h1 : pyStartsWith l "Thread" = true
  · simp [h1, not_core_of_thread h1]
  · by_cases h2 : pyStartsWith l "Core" = true
    · simp [h1, h2]
    · by_cases h3 : pyStartsWith l "Socket" = true
      · simp [h1, h2, h3]
      · by_cases h4 : pyStartsWith l "Model name" = true
        · simp [h1, h2, h3, h4]
        · simp [h1, h2, h3, h4]

theorem cpu_fold_step_sockets (st : CpuState) (l : String) :
    (cpu_fold_step st l).sockets =
      if pyStartsWith l "Socket" then some (colonValD l) else st.sockets := by
  unfold cpu_fold_step
  by_cases h1 : pyStartsWith l "Thread" = true
  · simp [h1, not_socket_of_thread h1]
  · by_cases h2 : pyStartsWith l "Core" = true
    · simp [h1, h2, not_socket_of_core h2]
    · by_cases h3 : pyStartsWith l "Socket" = true
      · simp [h1, h2, h3]
      · by_cases h4 : pyStartsWith l "Model name" = true
        · simp [h1, h2, h3, h4]
        · simp [h1, h2, h3, h4]

theorem cpu_fold_step_model (st : CpuState) (l : String) :
    (cpu_fold_step st l).model =
      if pyStartsWith l "Model name" then some (colonValD l) else st.model := by
  unfold cpu_fold_step
  by_cases h1 : pyStartsWith l "Thread" = true
  · simp [h1, not_model_of_thread h1]
  · by_cases h2 : pyStartsWith l "Core" = true
    · simp [h1, h2, not_model_of_core h2]
    · by_cases h3 : pyStartsWith l "Socket" = true
      · simp [h1, h2, h3, not_model_of_socket h3]
      · by_cases h4 : pyStartsWith l "Model name" = true
        · simp [h1, h2, h3, h4]
        · simp [h1, h2, h3, h4]

theorem lastMatch_cons (p : String → Bool) (l : String) (ls : List String) :
    lastMatch p (l :: ls) =
      match lastMatch p ls with
      | some r => some r
      | none => if p l then some l else none := rfl

theorem okBind {α β : Type} (a : α) (f : α → Except Err β) :
    (do let v ← Except.ok a; f v : Except Err β) = f a := rfl

theorem errBind {α β : Type} (e : Err) (f : α → Except Err β) :
    (do let v ← Except.error e; f v : Except Err β) = .error e := rfl

/-- The scanned state's field for a label is the last matching line's value:
"the last occurrence of each label wins". -/
theorem foldl_proj_lastMatch (proj : CpuState → Option String) (lab : String)
    (hstep : ∀ st l, proj (cpu_fold_step st l) =
      if pyStartsWith l lab then some (colonValD l) else proj st) :
    ∀ (lines : List String) (st : CpuState),
      proj (List.foldl cpu_fold_step st lines) =
        match lastMatch (fun l => pyStartsWith l lab) lines with
        | some r => some (colonValD r)
        | none => proj st := by
  intro lines
  induction lines with
  | nil => intro st; rfl
  | cons l ls ih =>
    intro st
    rw [List.foldl_cons, ih, lastMatch_cons]
    cases hml : lastMatch (fun l => pyStartsWith l lab) ls with
    | some r => rfl
    | none =>
      simp only [hstep]
      by_cases hl : pyStartsWith l lab = true
      · simp [hl]
      · simp [hl]

theorem cpu_step_ok {l : String} (st : CpuState)
    (h : cpuMatched l = true → (nth (pySplitColon l) 1).isSome = true) :
    cpu_step st l = .ok (cpu_fold_step st l) := by
  unfold cpu_step cpu_fold_step
  by_cases h1 : pyStartsWith l "Thread" = true
  · rw [colonVal_ok (h (by simp [cpuMatched, h1]))]
    simp [h1, okBind]
  · by_cases h2 : pyStartsWith l "Core" = true
    · rw [colonVal_ok (h (by simp [cpuMatched, h2]))]
      simp [h1, h2, okBind]
    · by_cases h3 : pyStartsWith l "Socket" = true
      · rw [colonVal_ok (h (by simp [cpuMatched, h3]))]
        simp [h1, h2, h3, okBind]
      · by_cases h4 : pyStartsWith l "Model name" = true
        · rw [colonVal_ok (h (by simp [cpuMatched, h4]))]
          simp [h1, h2, h3, h4, okBind]
        · simp [h1, h2, h3, h4]

/-- When every line a branch fires on has a `':'`, the scan cannot raise and
equals the pure fold. -/
theorem cpu_scan_eq_foldl (lines : List String)
    (hwf : ∀ l ∈ lines, cpuMatched l = true → (nth (pySplitColon l) 1).isSome = true) :
    ∀ st, cpu_scan st lines = .ok (List.foldl cpu_fold_step st lines) := by
  induction lines with
  | nil => intro st; rfl
  | cons l ls ih =>
    intro st
    show (do
      let st' ← cpu_step st l
      cpu_scan st' ls) = _
    rw [cpu_step_ok st (hwf l (by simp))]
    show cpu_scan (cpu_fold_step st l) ls = _
    rw [ih (fun x hx hm => hwf x (by simp [hx]) hm), List.foldl_cons]

/-! ## C3: missing labeled lines fail identifying the missing fact -/

theorem mem_scan_nomatch (lines : List String)
    (h : ∀ l ∈ lines, pyStartsWith l "Total online" = false) :
    ∀ m, mem_scan m lines = .ok m := by
  induction lines with
  | nil => intro m; rfl
  | cons l ls ih =>
    intro m
    unfold mem_scan
    rw [h l (by simp)]
    simp only [Bool.false_eq_true, if_false]
    exact ih (fun x hx => h x (by simp [hx])) m

theorem lastMatch_nomatch (p : String → Bool) (lines : List String)
    (h : ∀ l ∈ lines, p l = false) : lastMatch p lines = none := by
  induction lines with
  | nil => rfl
  | cons l ls ih =>
    rw [lastMatch_cons, ih (fun x hx => h x (by simp [hx])), h l (by simp)]
    simp

theorem cpu_step_pres_sockets {st st' : CpuState} {l : String}
    (hs : pyStartsWith l "Socket" = false) (h : cpu_step st l = .ok st') :
    st'.sockets = st.sockets := by
  unfold cpu_step at h
  by_cases h1 : pyStartsWith l "Thread" = true
  · rw [if_pos h1] at h
    cases hc : colonVal l with
    | error e => rw [hc, errBind] at h; cases h
    | ok v => rw [hc, okBind] at h; cases h; rfl
  · rw [if_neg h1] at h
    by_cases h2 : pyStartsWith l "Core" = true
    · rw [if_pos h2] at h
      cases hc : colonVal l with
      | error e => rw [hc, errBind] at h; cases h
      | ok v => rw [hc, okBind] at h; cases h; rfl
    · rw [if_neg h2, hs] at h
      simp only [Bool.false_eq_true, if_false] at h
      by_cases h4 : pyStartsWith l "Model name" = true
      · rw [if_pos h4] at h
        cases hc : colonVal l with
        | error e => rw [hc, errBind] at h; cases h
        | ok v => rw [hc, okBind] at h; cases h; rfl
      · rw [if_neg h4] at h
        cases h
        rfl

theorem cpu_scan_pres_sockets {lines : List String}
    (hs : ∀ l ∈ lines, pyStartsWith l "Socket" = false) :
    ∀ {st st' : CpuState}, cpu_scan st lines = .ok st' → st'.sockets = st.sockets := by
  induction lines with
  | nil => intro st st' h; cases h; rfl
  | cons l ls ih =>
    intro st st' h
    unfold cpu_scan at h
    cases hc : cpu_step st l with
    | error e => rw [hc, errBind] at h; cases h
    | ok st'' =>
      rw [hc, okBind] at h
      rw [ih (fun x hx => hs x (by simp [hx])) h]
      exact cpu_step_pres_sockets (hs l (by simp)) hc

/-- Claim C3 (confirmed): a memory text with no line starting with
"Total online" makes `get_mem_info`'s parse fail naming the unbound fact
`mem` (Python's `NameError: name 'mem' is not defined`, the spec's
`ParseError`); a CPU text with no line starting with "Socket" always makes
`get_cpu_info`'s parse fail — never return a default — and, whenever the
other labeled lines are well formed, it fails naming the unbound fact
`sockets`. -/
theorem C3_missing_line_fails :
    (∀ lines : List String, (∀ l ∈ lines, pyStartsWith l "Total online" = false) →
      mem_parse lines = .error (.nameError "mem")) ∧
    (∀ lines : List String, (∀ l ∈ lines, pyStartsWith l "Socket" = false) →
      (∃ e, cpu_parse lines = .error e) ∧
      ((∀ l ∈ lines, cpuMatched l = true → (nth (pySplitColon l) 1).isSome = true) →
        cpu_parse lines = .error (.nameError "sockets"))) := by
  constructor
  · intro lines h
    unfold mem_parse
    rw [mem_scan_nomatch lines h none, okBind]
  · intro lines h
    constructor
    · cases hsc : cpu_scan ⟨none, none, none, none⟩ lines with
      | error e =>
        refine ⟨e, ?_⟩
        unfold cpu_parse
        rw [hsc, errBind]
      | ok st =>
        refine ⟨.nameError "sockets", ?_⟩
        unfold cpu_parse
        rw [hsc, okBind, cpu_scan_pres_sockets h hsc]
    · intro hwf
      unfold cpu_parse
      rw [cpu_scan_eq_foldl lines hwf ⟨none, none, none, none⟩, okBind]
      have hsock := foldl_proj_lastMatch (fun st => st.sockets) "Socket"
        cpu_fold_step_sockets lines ⟨none, none, none, none⟩
      rw [lastMatch_nomatch _ lines h] at hsock
      rw [hsock]

/-- Witness for C3 at concrete inputs missing the labeled lines. -/
theorem C3_missing_line_fails_witness :
    mem_parse ["Memory block size: 128M"] = .error (.nameError "mem") ∧
    cpu_parse ["Thread(s) per core: 2", "Core(s) per socket: 8"] =
      .error (.nameError "sockets") :=
  ⟨C3_missing_line_fails.1 ["Memory block size: 128M"] (by decide),
   (C3_missing_line_fails.2 ["Thread(s) per core: 2", "Core(s) per socket: 8"]
      (by decide)).2 (by decide)⟩

/-! ## C4: the CPU parser on well-formed topology text -/

/-- Claim C4, amended (corrected): on well-formed CPU topology text whose
last "Socket"/"Core"/"Thread"/"Model name"-prefixed lines carry S, C, T and
M, the parser returns exactly S records, each with model `M`, cores `C`,
threads `T`, and `cpu_num` the decimal *string* `"0"`..`"S-1"` in order —
the code stores `f"{i}"`, a string, not the integer the claim's data model
asks for. -/
theorem C4_amended (lines : List String) (S : Int) (sstr tstr cstr mstr : String)
    (lS lT lC lM : String)
    (hwf : ∀ l ∈ lines, cpuMatched l = true → (nth (pySplitColon l) 1).isSome = true)
    (hS : lastMatch (fun l => pyStartsWith l "Socket") lines = some lS)
    (hSv : colonValD lS = sstr) (hSi : pyInt? sstr = some S)
    (hT : lastMatch (fun l => pyStartsWith l "Thread") lines = some lT)
    (hTv : colonValD lT = tstr)
    (hC : lastMatch (fun l => pyStartsWith l "Core") lines = some lC)
    (hCv : colonValD lC = cstr)
    (hM : lastMatch (fun l => pyStartsWith l "Model name") lines = some lM)
    (hMv : colonValD lM = mstr) :
    cpu_parse lines =
      .ok ((List.range S.toNat).map fun i => ⟨PyVal.str (toString i), mstr, cstr, tstr⟩) := by
  have hsock : (List.foldl cpu_fold_step ⟨none, none, none, none⟩ lines).sockets = some sstr := by
    rw [foldl_proj_lastMatch (fun st => st.sockets) "Socket" cpu_fold_step_sockets lines
      ⟨none, none, none, none⟩, hS]
    simp [hSv]
  have hthr : (List.foldl cpu_fold_step ⟨none, none, none, none⟩ lines).threads = some tstr := by
    rw [foldl_proj_lastMatch (fun st => st.threads) "Thread" cpu_fold_step_threads lines
      ⟨none, none, none, none⟩, hT]
    simp [hTv]
  have hcor : (List.foldl cpu_fold_step ⟨none, none, none, none⟩ lines).cores = some cstr := by
    rw [foldl_proj_lastMatch (fun st => st.cores) "Core" cpu_fold_step_cores lines
      ⟨none, none, none, none⟩, hC]
    simp [hCv]
  have hmod : (List.foldl cpu_fold_step ⟨none, none, none, none⟩ lines).model = some mstr := by
    rw [foldl_proj_lastMatch (fun st => st.model) "Model name" cpu_fold_step_model lines
      ⟨none, none, none, none⟩, hM]
    simp [hMv]
  unfold cpu_parse
  rw [cpu_scan_eq_foldl lines hwf ⟨none, none, none, none⟩, okBind, hsock]
  simp only [hSi]
  by_cases hS0 : S ≤ 0
  · simp [hS0, Int.toNat_of_nonpos hS0]
  · simp [hS0, hmod, hcor, hthr]

/-- Witness for the amended C4 at the spec's own two-socket example text. -/
theorem C4_amended_witness :
    cpu_parse ["Thread(s) per core: 2", "Core(s) per socket: 8", "Socket(s): 2",
        "Model name: Xeon"] =
      .ok ((List.range (Int.toNat 2)).map fun i => ⟨PyVal.str (toString i), "Xeon", "8", "2"⟩) :=
  C4_amended ["Thread(s) per core: 2", "Core(s) per socket: 8", "Socket(s): 2",
      "Model name: Xeon"] 2 "2" "2" "8" "Xeon"
    "Socket(s): 2" "Thread(s) per core: 2" "Core(s) per socket: 8" "Model name: Xeon"
    (by decide) (by decide) (by decide) (by decide) (by decide) (by decide)
    (by decide) (by decide) (by decide) (by decide)

/-- Counterexample to C4 as stated: on the well-formed two-socket example
text the records' `cpu_num` values are the strings `"0"` and `"1"` — no
record holds an integer `cpu_num`, contradicting "cpu_num being an integer
per the data model". -/
theorem C4_counterexample :
    cpu_parse ["Thread(s) per core: 2", "Core(s) per socket: 8", "Socket(s): 2",
        "Model name: Xeon"] =
      .ok [⟨PyVal.str "0", "Xeon", "8", "2"⟩, ⟨PyVal.str "1", "Xeon", "8", "2"⟩] ∧
    ((cpu_parse ["Thread(s) per core: 2", "Core(s) per socket: 8", "Socket(s): 2",
        "Model name: Xeon"]).toOption.getD []).all
      (fun r => ! r.cpu_num.isIntVal) = true := by
  constructor
  · decide
  · decide

/-! ## Exception propagation through the per-disk fan-out -/

theorem exceptMap_error_of_mem {α β : Type} (f : α → Except Err β) {l : List α}
    {a : α} {e : Err} (ha : a ∈ l) (he : f a = .error e) :
    ∃ e', exceptMap f l = .error e' := by
  induction l with
  | nil => cases ha
  | cons b bs ih =>
    cases hfb : f b with
    | error eb => exact ⟨eb, by unfold exceptMap; rw [hfb, errBind]⟩
    | ok v =>
      cases List.mem_cons.mp ha with
      | inl hab =>
        rw [hab] at he
        cases he.symm.trans hfb
      | inr hmem =>
        obtain ⟨e', he'⟩ := ih hmem
        exact ⟨e', by unfold exceptMap; rw [hfb, okBind, he', errBind]⟩

theorem exceptMap_ok_of_forall {α β : Type} (f : α → Except Err β) (g : α → β)
    {l : List α} (h : ∀ a ∈ l, f a = .ok (g a)) :
    exceptMap f l = .ok (l.map g) := by
  induction l with
  | nil => rfl
  | cons b bs ih =>
    unfold exceptMap
    rw [h b (by simp), okBind, ih (fun x hx => h x (by simp [hx])), okBind]
    rfl

/-! ## C1: one failing temperature probe aborts the cycle and the loop -/

/-- Claim C1, amended (corrected): when a disk of the captured list has a
temperature probe whose `smartctl` invocation fails, the sampling cycle is
aborted by the re-raised exception: no joined line is published for that
cycle, and the loop terminates with the error instead of continuing to the
next cycle.  (The claim as stated — publish all N entries with the failing
disk absent and continue — is refuted by `C1_counterexample`.) -/
theorem C1_amended (disks : List DiskRec) (run : String → Except Err String)
    (rest : List (String → Except Err String)) (d : DiskRec) (hd : d ∈ disks)
    (e : Err) (he : run d.name = .error e) :
    ∃ e', temp_cycle disks run = .error e' ∧
      sampler_loop disks (run :: rest) = ([], some e') := by
  have hgd : get_disk_temps d run = .error e := by
    unfold get_disk_temps
    rw [he, errBind]
  obtain ⟨e', he'⟩ := exceptMap_error_of_mem (fun d => get_disk_temps d run) hd hgd
  have ht : temp_cycle disks run = .error e' := by
    unfold temp_cycle
    rw [he', errBind]
  exact ⟨e', ht, by simp [sampler_loop, ht]⟩

/-- The two-disk sampling environment of the C1/C9 scenarios: `sda` reports
a SMART attribute table with temperature 36, `sdb`'s probe fails. -/
def tempRunOneBad : String → Except Err String := fun n =>
  if n = "sdb" then .error (.probe "smartctl")
  else .ok "194 Temperature_Celsius 0x0022 036 053 000 Old_age Always - 36"

/-- Witness for the amended C1: with `sdb`'s probe failing, the cycle
yields an error and the loop publishes nothing and stops. -/
theorem C1_amended_witness :
    ∃ e', temp_cycle
        [⟨"sda", some "1:0:0:0", "500G", "hdd", some (some "S1")⟩,
         ⟨"sdb", some "2:0:0:0", "500G", "hdd", some (some "S2")⟩] tempRunOneBad = .error e' ∧
      sampler_loop
        [⟨"sda", some "1:0:0:0", "500G", "hdd", some (some "S1")⟩,
         ⟨"sdb", some "2:0:0:0", "500G", "hdd", some (some "S2")⟩] [tempRunOneBad] =
        ([], some e') :=
  C1_amended _ tempRunOneBad []
    ⟨"sdb", some "2:0:0:0", "500G", "hdd", some (some "S2")⟩ (by decide)
    (.probe "smartctl") (by decide)

/-- Counterexample to C1 as stated: with two known disks and exactly one
probe raising, the loop publishes no line at all for the cycle (rather than
a line with both entries and the failing temperature absent) and
terminates with the error instead of continuing. -/
theorem C1_counterexample :
    sampler_loop
      [⟨"sda", some "1:0:0:0", "500G", "hdd", some (some "S1")⟩,
       ⟨"sdb", some "2:0:0:0", "500G", "hdd", some (some "S2")⟩]
      [tempRunOneBad] = ([], some (.probe "smartctl")) := by
  decide

/-! ## C2: one failing serial probe aborts disk-info assembly -/

theorem serial_scan_nomatch (lines : List String)
    (h : ∀ l ∈ lines, pyStartsWith l "Serial" = false) :
    ∀ s, serial_scan s lines = .ok s := by
  induction lines with
  | nil => intro s; rfl
  | cons l ls ih =>
    intro s
    unfold serial_scan
    rw [h l (by simp)]
    simp only [Bool.false_eq_true, if_false]
    exact ih (fun x hx => h x (by simp [hx])) s

/-- Claim C2, amended (corrected): a disk whose serial probe's `smartctl -i`
invocation fails makes `get_disk_info` itself raise — the disk record set is
not constructed (the claim as stated says the assembly still succeeds; see
`C2_counterexample`).  A disk's `serial` is absent (`None`) when its probe
succeeds but the output has no "Serial"-prefixed line: that case alone is
non-fatal. -/
theorem C2_amended :
    (∀ (out : String) (serialRun : String → Except Err String)
        (recs : List DiskRec) (d : DiskRec) (e : Err),
      exceptMap parse_disk_line (pyLines (pyStrip out)) = .ok recs →
      d ∈ recs → serialRun d.name = .error e →
      ∃ e', get_disk_info (.ok out) serialRun = .error e') ∧
    (∀ (disk out : String), (∀ l ∈ pyLines out, pyStartsWith l "Serial" = false) →
      get_disk_serial disk (.ok out) = .ok (disk, none)) := by
  constructor
  · intro out serialRun recs d e hp hd he
    have hgd : get_disk_serial d.name (serialRun d.name) = .error e := by
      unfold get_disk_serial
      rw [he, errBind]
    obtain ⟨e', he'⟩ :=
      exceptMap_error_of_mem (fun n => get_disk_serial n (serialRun n))
        (List.mem_map_of_mem (fun r => r.name) hd) hgd
    refine ⟨e', ?_⟩
    unfold get_disk_info
    rw [okBind, hp, okBind, he', errBind]
  · intro disk out h
    unfold get_disk_serial
    rw [okBind, serial_scan_nomatch (pyLines out) h none, okBind]

/-- Witness for the amended C2: a failing serial probe aborts
`get_disk_info`; a successful probe with no Serial line yields
`(disk, None)`. -/
theorem C2_amended_witness :
    (∃ e', get_disk_info (.ok "sda 1:0:0:0 1 500G")
        (fun _ => .error (.probe "smartctl")) = .error e') ∧
    get_disk_serial "sda" (.ok "Model Number: X\nFirmware: 1") = .ok ("sda", none) :=
  ⟨C2_amended.1 "sda 1:0:0:0 1 500G" (fun _ => .error (.probe "smartctl"))
      [⟨"sda", some "1:0:0:0", "500G", "hdd", none⟩]
      ⟨"sda", some "1:0:0:0", "500G", "hdd", none⟩
      (.probe "smartctl") (by decide) (by decide) (by decide),
   C2_amended.2 "sda" "Model Number: X\nFirmware: 1" (by decide)⟩

/-- Counterexample to C2 as stated: with one enumerated disk whose serial
probe raises, `get_disk_info` returns the error — it does not return a
record set with that disk's serial absent. -/
theorem C2_counterexample :
    get_disk_info (.ok "sda 1:0:0:0 1 500G") (fun _ => .error (.probe "smartctl")) =
      .error (.probe "smartctl") := by
  decide

/-! ## C9: the published cycle line -/

theorem nvme_temp_scan_nomatch (lines : List String)
    (h : ∀ l ∈ lines, pyStartsWith l "Temperature:" = false) :
    ∀ t0, nvme_temp_scan t0 lines = .ok t0 := by
  induction lines with
  | nil => intro t0; rfl
  | cons l ls ih =>
    intro t0
    unfold nvme_temp_scan
    rw [h l (by simp)]
    simp only [Bool.false_eq_true, if_false]
    exact ih (fun x hx => h x (by simp [hx])) t0

theorem ata_temp_scan_nomatch (lines : List String)
    (h : ∀ l ∈ lines, pyStartsWith l "194 Temperature" = false) :
    ∀ t0, ata_temp_scan t0 lines = .ok t0 := by
  induction lines with
  | nil => intro t0; rfl
  | cons l ls ih =>
    intro t0
    unfold ata_temp_scan
    rw [h l (by simp)]
    simp only [Bool.false_eq_true, if_false]
    exact ih (fun x hx => h x (by simp [hx])) t0

/-- Claim C9, amended (corrected): when every disk's probe execution
succeeds, the text handed to the publisher is the single line joining, with
`'|'`, one "`name` `temperature`" pair per known disk in disk-list order —
but a disk whose output has no matching temperature line contributes
"`name` `None`" (Python renders the absent value as the string `"None"`),
not a name with an empty temperature as the claim states (see
`C9_counterexample`). -/
theorem C9_amended :
    (∀ (disks : List DiskRec) (run : String → Except Err String)
        (t : String → Option String),
      (∀ d ∈ disks, ∃ out, run d.name = .ok out ∧
        temp_scan_for d.name out = .ok (t d.name)) →
      temp_cycle disks run =
        .ok (pyJoin "|" (disks.map fun d => d.name ++ " " ++ pyFStr (t d.name)))) ∧
    (∀ lines : List String, (∀ l ∈ lines, pyStartsWith l "Temperature:" = false) →
      nvme_temp_scan none lines = .ok none) ∧
    (∀ lines : List String, (∀ l ∈ lines, pyStartsWith l "194 Temperature" = false) →
      ata_temp_scan none lines = .ok none) := by
  refine ⟨?_, fun lines h => nvme_temp_scan_nomatch lines h none,
    fun lines h => ata_temp_scan_nomatch lines h none⟩
  intro disks run t h
  have hall : ∀ d ∈ disks, get_disk_temps d run =
      .ok (d.name ++ " " ++ pyFStr (t d.name)) := by
    intro d hd
    obtain ⟨out, hrun, hscan⟩ := h d hd
    unfold get_disk_temps
    rw [hrun, okBind, hscan, okBind]
  unfold temp_cycle
  rw [exceptMap_ok_of_forall (fun d => get_disk_temps d run)
    (fun d => d.name ++ " " ++ pyFStr (t d.name)) hall, okBind]

/-- Witness for the amended C9: one rotational disk whose output has no
matching attribute line contributes "sda None", and the cycle publishes
exactly that joined line. -/
theorem C9_amended_witness :
    temp_cycle [⟨"sda", some "1:0:0:0", "500G", "hdd", none⟩]
      (fun _ => .ok "no matching attribute line") =
      .ok (pyJoin "|" (([⟨"sda", some "1:0:0:0", "500G", "hdd", none⟩] : List DiskRec).map
        fun d => d.name ++ " " ++ pyFStr ((fun _ => (none : Option String)) d.name))) :=
  C9_amended.1 [⟨"sda", some "1:0:0:0", "500G", "hdd", none⟩]
    (fun _ => .ok "no matching attribute line") (fun _ => none)
    (by
      intro d hd
      rw [List.mem_singleton] at hd
      subst hd
      exact ⟨"no matching attribute line", rfl, by decide⟩)

/-- Counterexample to C9 as stated: a disk with no matching temperature line
contributes the pair "sda None", not a name with an empty temperature
("sda " or "sda"). -/
theorem C9_counterexample :
    temp_cycle [⟨"sda", some "1:0:0:0", "500G", "hdd", none⟩]
      (fun _ => .ok "no matching attribute line") = .ok "sda None" ∧
    ("sda None" : String) ≠ "sda " ∧ ("sda None" : String) ≠ "sda" := by
  refine ⟨by decide, by decide, by decide⟩

/-! ## C8: reconciliation -/

theorem reconcile_step_comm (s t : String × Option String) (hst : s.1 ≠ t.1)
    (dk : DiskRec) :
    reconcile_step t (reconcile_step s dk) = reconcile_step s (reconcile_step t dk) := by
  unfold reconcile_step
  by_cases hs : s.1 = dk.name <;> by_cases ht : t.1 = dk.name
  · exact absurd (hs.trans ht.symm) hst
  · simp [hs, ht]
  · simp [hs, ht]
  · simp [hs, ht]

theorem reconcileOne_cons (s : String × Option String)
    (P : List (String × Option String)) (dk : DiskRec) :
    reconcileOne (s :: P) dk = reconcileOne P (reconcile_step s dk) := rfl

theorem reconcile_eq_map (serials : List (String × Option String)) :
    ∀ disks : List DiskRec, reconcile disks serials = disks.map (reconcileOne serials) := by
  induction serials with
  | nil =>
    intro disks
    have hid : reconcileOne ([] : List (String × Option String)) = id :=
      funext fun dk => rfl
    show disks = disks.map (reconcileOne [])
    rw [hid, List.map_id]
  | cons s P ih =>
    intro disks
    show reconcile (disks.map (reconcile_step s)) P = _
    rw [ih (disks.map (reconcile_step s)), List.map_map]
    rfl

theorem reconcileOne_nomatch (P : List (String × Option String)) :
    ∀ dk : DiskRec, (∀ s ∈ P, s.1 ≠ dk.name) → reconcileOne P dk = dk := by
  induction P with
  | nil => intro dk _; rfl
  | cons s P ih =>
    intro dk h
    rw [reconcileOne_cons]
    have hstep : reconcile_step s dk = dk := by
      unfold reconcile_step
      rw [if_neg (h s (by simp))]
    rw [hstep]
    exact ih dk (fun x hx => h x (by simp [hx]))

theorem reconcileOne_perm {P Q : List (String × Option String)} (hperm : P.Perm Q) :
    P.Pairwise (fun a b => a.1 ≠ b.1) →
      ∀ dk : DiskRec, reconcileOne P dk = reconcileOne Q dk := by
  induction hperm with
  | nil => intro _ dk; rfl
  | cons x h ih =>
    intro hU dk
    rw [reconcileOne_cons, reconcileOne_cons]
    exact ih (List.pairwise_cons.mp hU).2 (reconcile_step x dk)
  | swap x y l =>
    intro hU dk
    rw [reconcileOne_cons, reconcileOne_cons, reconcileOne_cons, reconcileOne_cons]
    have hxy : y.1 ≠ x.1 := (List.pairwise_cons.mp hU).1 x (by simp)
    rw [reconcile_step_comm y x hxy dk]
  | trans h1 h2 ih1 ih2 =>
    intro hU dk
    rw [ih1 hU dk, ih2 ((List.Perm.pairwise_iff (fun hab => hab.symm) h1).mp hU) dk]

/-- Claim C8, amended (corrected): for serial-pair lists with pairwise
distinct names — which is what the per-disk fan-out produces, one pair per
enumerated disk — the merged record set is the same for every arrival order
of the pairs; the merge acts on each enumeration record independently; and a
disk name with no matching pair keeps its record unchanged, serial still
absent, with no error.  (Without distinct names order matters:
`C8_counterexample`.) -/
theorem C8_amended (E : List DiskRec) (P Q : List (String × Option String))
    (hU : P.Pairwise (fun a b => a.1 ≠ b.1)) (hperm : P.Perm Q) :
    reconcile E P = reconcile E Q ∧
    reconcile E P = E.map (reconcileOne P) ∧
    (∀ dk ∈ E, (∀ s ∈ P, s.1 ≠ dk.name) → reconcileOne P dk = dk) := by
  refine ⟨?_, reconcile_eq_map P E, fun dk _ h => reconcileOne_nomatch P dk h⟩
  rw [reconcile_eq_map P E, reconcile_eq_map Q E,
    funext (reconcileOne_perm hperm hU)]

/-- Witness for the amended C8 at a concrete enumeration set and
distinct-name pair list, in both arrival orders. -/
theorem C8_amended_witness :
    (reconcile [⟨"sda", some "1:0:0:0", "500G", "hdd", none⟩]
        [("sda", some "SX"), ("sdb", some "SZ")] =
      reconcile [⟨"sda", some "1:0:0:0", "500G", "hdd", none⟩]
        [("sdb", some "SZ"), ("sda", some "SX")]) ∧
    (reconcile [⟨"sda", some "1:0:0:0", "500G", "hdd", none⟩]
        [("sda", some "SX"), ("sdb", some "SZ")] =
      [⟨"sda", some "1:0:0:0", "500G", "hdd", none⟩].map
        (reconcileOne [("sda", some "SX"), ("sdb", some "SZ")])) ∧
    (∀ dk ∈ [⟨"sda", some "1:0:0:0", "500G", "hdd", none⟩],
      (∀ s ∈ [("sda", some "SX"), ("sdb", some "SZ")], s.1 ≠ dk.name) →
        reconcileOne [("sda", some "SX"), ("sdb", some "SZ")] dk = dk) :=
  C8_amended [⟨"sda", some "1:0:0:0", "500G", "hdd", none⟩]
    [("sda", some "SX"), ("sdb", some "SZ")] [("sdb", some "SZ"), ("sda", some "SX")]
    (by decide) (by decide)

/-- Counterexample to C8 as stated: the enumeration set has unique names,
the pair list is a set of two distinct pairs, yet the two arrival orders
merge to different record sets (the last matching pair wins). -/
theorem C8_counterexample :
    List.Perm [("sda", some "SX"), ("sda", some "SY")]
      [("sda", some "SY"), ("sda", some "SX")] ∧
    reconcile [⟨"sda", some "1:0:0:0", "500G", "hdd", none⟩]
        [("sda", some "SX"), ("sda", some "SY")] ≠
      reconcile [⟨"sda", some "1:0:0:0", "500G", "hdd", none⟩]
        [("sda", some "SY"), ("sda", some "SX")] := by
  refine ⟨by decide, by decide⟩
